import Mathlib

/-!
Shallow embedding of the `eddy` disk-kinematics fitting code
(`eddy/deprojection.py`, `eddy/models.py`, `eddy/fit_cube.py`) and proofs
about it.  Machine floating-point values are modelled as real numbers
(`ℝ`); the purely dictionary-shaped validation logic of
`verify_params_dictionary` is modelled over the rationals (`ℚ`) so that it
is fully executable.  Arrays are modelled pointwise (numpy broadcasting is
pointwise), and a value that may be a float NaN/Inf is modelled as
`Option ℝ` with `none` standing for a non-finite entry.
-/

namespace Eddy

noncomputable section

/-- `np.radians(x)`: convert degrees to radians, `x * π / 180`. -/
def radians (x : ℝ) : ℝ := x * Real.pi / 180

/-- `np.hypot(x, y) = sqrt(x² + y²)`. -/
def hypot (x y : ℝ) : ℝ := Real.sqrt (x ^ 2 + y ^ 2)

/-- `np.arctan2(y, x)`: the argument of the point `(x, y)`, in `(-π, π]`. -/
def arctan2 (y x : ℝ) : ℝ := Complex.arg ⟨x, y⟩

/-- `deprojection.rotate_coords(x, y, PA)` (deprojection.py lines 43-48):
`x_rot = y*cos(radians(PA)) + x*sin(radians(PA))`,
`y_rot = x*cos(radians(PA)) - y*sin(radians(PA))`. -/
def rotate_coords (x y PA : ℝ) : ℝ × ℝ :=
  (y * Real.cos (radians PA) + x * Real.sin (radians PA),
   x * Real.cos (radians PA) - y * Real.sin (radians PA))

theorem radians_90 : radians 90 = Real.pi / 2 := by unfold radians; ring

theorem radians_neg90 : radians (-90) = -(Real.pi / 2) := by unfold radians; ring

/-- C6: the claim states that rotating `(x, y)` by `PA` and then rotating the
result by `-PA` returns the original point.  This is false: at `PA = 90`
and `(x, y) = (1, 0)` the round trip returns `(-1, 0)`. -/
theorem rotate_coords_roundtrip_negPA_counterexample :
    rotate_coords (rotate_coords 1 0 90).1 (rotate_coords 1 0 90).2 (-90) = (-1, 0) ∧
      ((-1 : ℝ), (0 : ℝ)) ≠ ((1 : ℝ), (0 : ℝ)) := by
  constructor
  · simp [rotate_coords, radians_90, radians_neg90, Real.cos_pi_div_two,
      Real.sin_pi_div_two]
  · simp only [ne_eq, Prod.mk.injEq, not_and]
    intro h
    norm_num at h

/-- C6 amended: the transform of `rotate_coords` is a symmetric involution,
so applying `rotate_coords` with the SAME angle `PA` twice returns the
original coordinates (this also means the matrix equals its own
transpose, the intent behind the claim). -/
theorem rotate_coords_involution (x y PA : ℝ) :
    rotate_coords (rotate_coords x y PA).1 (rotate_coords x y PA).2 PA = (x, y) := by
  have h := Real.sin_sq_add_cos_sq (radians PA)
  unfold rotate_coords
  simp only [Prod.mk.injEq]
  constructor
  · linear_combination x * h
  · linear_combination y * h

/-- `deprojection.deproject_coords(x, y, inc)` (deprojection.py lines 51-54):
`(x, y / cos(radians(inc)))`. -/
def deproject_coords (x y inc : ℝ) : ℝ × ℝ := (x, y / Real.cos (radians inc))

/-- `deprojection.get_cart_sky_coords` (deprojection.py lines 57-59), read
pointwise at a single pixel `(x, y)` of the meshgrid: `(x - x0, y - y0)`. -/
def get_cart_sky_coords (x0 y0 x y : ℝ) : ℝ × ℝ := (x - x0, y - y0)

/-- `deprojection.get_midplane_cart_coords` (deprojection.py lines 62-66):
recentre, rotate by `PA`, deproject by `inc`. -/
def get_midplane_cart_coords (x0 y0 inc PA x y : ℝ) : ℝ × ℝ :=
  let sky := get_cart_sky_coords x0 y0 x y
  let rot := rotate_coords sky.1 sky.2 PA
  deproject_coords rot.1 rot.2 inc

/-- `deprojection.z_func(r_in, z0, r_cavity, r_taper, psi, q_taper)`
(deprojection.py lines 26-31):
`r = max(r_in - r_cavity, 0)`, `z = z0 * r^psi * exp(-(r/r_taper)^q_taper)`,
clamped below by 0.  The real powers are `np.power` with real exponents,
modelled by `Real.rpow`. -/
def z_func (r_in z0 r_cavity r_taper psi q_taper : ℝ) : ℝ :=
  let r := max (r_in - r_cavity) 0
  max (z0 * r ^ psi * Real.exp (-((r / r_taper) ^ q_taper))) 0

/-- `deprojection.w_func(r_in, t, r_cavity, w_r, w_i, w_t)`
(deprojection.py lines 35-40):
`r = max(r_in - r_cavity, 0)`, `warp = radians(w_i) * exp(-0.5*(r/w_r)²)`,
returns `r * tan(warp * sin(t - radians(w_t)))`. -/
def w_func (r_in t r_cavity w_r w_i w_t : ℝ) : ℝ :=
  let r := max (r_in - r_cavity) 0
  let warp := radians w_i * Real.exp (-(1 / 2) * (r / w_r) ^ (2 : ℕ))
  r * Real.tan (warp * Real.sin (t - radians w_t))

/-- One pass of the body of the `for _ in range(niter)` loop of
`deprojection._get_flared_coords` (deprojection.py lines 16-21): from the
current `(r_tmp, t_tmp)` compute
`z_tmp = z_func(r_tmp, ...) + w_func(r_tmp, t_tmp, ...)`,
`y_tmp = y_mid + z_tmp * tan(radians(inc))`, and rederive
`(hypot(y_tmp, x_mid), arctan2(y_tmp, x_mid))`. -/
def flared_coords_step (x_mid y_mid inc z0 r_cavity r_taper psi q_taper w_r w_i w_t : ℝ)
    (rt : ℝ × ℝ) : ℝ × ℝ :=
  let z_tmp := z_func rt.1 z0 r_cavity r_taper psi q_taper +
    w_func rt.1 rt.2 r_cavity w_r w_i w_t
  let y_tmp := y_mid + z_tmp * Real.tan (radians inc)
  (hypot y_tmp x_mid, arctan2 y_tmp x_mid)

/-- `deprojection._get_flared_coords` (deprojection.py lines 13-22): start
from the flat-disk polar coordinates
`(hypot(x_mid, y_mid), arctan2(y_mid, x_mid))`, apply the loop body
`niter` times, and return `(r_tmp, t_tmp, z_func(r_tmp, ...))`. -/
def get_flared_coords_iter (x_mid y_mid inc z0 r_cavity r_taper psi q_taper w_r w_i w_t : ℝ)
    (niter : ℕ) : ℝ × ℝ × ℝ :=
  let rt := (flared_coords_step x_mid y_mid inc z0 r_cavity r_taper psi q_taper w_r w_i w_t)^[niter]
    (hypot x_mid y_mid, arctan2 y_mid x_mid)
  (rt.1, rt.2, z_func rt.1 z0 r_cavity r_taper psi q_taper)

/-- `deprojection.get_flared_coords` (deprojection.py lines 5-10), read
pointwise at a single pixel `(x, y)`: midplane cartesian coordinates, then
the iterative solver. -/
def get_flared_coords (x0 y0 x y inc PA z0 r_cavity r_taper psi q_taper w_r w_i w_t : ℝ)
    (niter : ℕ) : ℝ × ℝ × ℝ :=
  let mid := get_midplane_cart_coords x0 y0 inc PA x y
  get_flared_coords_iter mid.1 mid.2 inc z0 r_cavity r_taper psi q_taper w_r w_i w_t niter

theorem hypot_comm (x y : ℝ) : hypot x y = hypot y x := by
  unfold hypot; rw [add_comm]

theorem radians_0 : radians 0 = 0 := by unfold radians; ring

theorem radians_45 : radians 45 = Real.pi / 4 := by unfold radians; ring

theorem arctan2_one_zero : arctan2 1 0 = Real.pi / 2 := by
  unfold arctan2
  exact Complex.arg_I

theorem arctan2_zero_one : arctan2 0 1 = 0 := by
  unfold arctan2
  exact Complex.arg_one

theorem z_func_z0_zero (r_in r_cavity r_taper psi q_taper : ℝ) :
    z_func r_in 0 r_cavity r_taper psi q_taper = 0 := by
  unfold z_func; simp

theorem w_func_wi_zero (r_in t r_cavity w_r w_t : ℝ) :
    w_func r_in t r_cavity w_r 0 w_t = 0 := by
  unfold w_func
  simp [radians_0]

theorem rotate_coords_hypot (x y PA : ℝ) :
    hypot (rotate_coords x y PA).1 (rotate_coords x y PA).2 = hypot x y := by
  have h := Real.sin_sq_add_cos_sq (radians PA)
  unfold rotate_coords hypot
  congr 1
  linear_combination (x ^ 2 + y ^ 2) * h

/-- C7: the claim states the iterative flared-surface solver with `z0 = 0`
returns the flat-disk radius for every warp setting and iteration count.
This is false once the warp is switched on: at
`x_mid = 0, y_mid = 1, inc = 45, z0 = 0, r_cavity = 0, r_taper = 1,
psi = 1, q_taper = 1, w_r = 1, w_i = 90, w_t = 0` and `niter = 1`, the
flat-disk radius is `hypot 0 1 = 1` but the solver returns a strictly
larger radius. -/
theorem flared_solver_z0_zero_warp_counterexample :
    hypot 0 1 = 1 ∧ (get_flared_coords_iter 0 1 45 0 0 1 1 1 1 90 0 1).1 ≠ 1 := by
  have h01 : hypot 0 1 = 1 := by unfold hypot; norm_num
  have htpos : (0 : ℝ) < Real.pi / 2 * Real.exp (-(1 / 2)) := by positivity
  have htlt : Real.pi / 2 * Real.exp (-(1 / 2)) < Real.pi / 2 := by
    have h1 : Real.exp (-(1 / 2 : ℝ)) < 1 := Real.exp_lt_one_iff.mpr (by norm_num)
    nlinarith [Real.pi_pos]
  have htan : 0 < Real.tan (Real.pi / 2 * Real.exp (-(1 / 2))) :=
    Real.tan_pos_of_pos_of_lt_pi_div_two htpos htlt
  have hz : z_func 1 0 0 1 1 1 = 0 := z_func_z0_zero 1 0 1 1 1
  have hw : w_func 1 (Real.pi / 2) 0 1 90 0 =
      Real.tan (Real.pi / 2 * Real.exp (-(1 / 2))) := by
    unfold w_func
    rw [radians_90, radians_0]
    norm_num [Real.sin_pi_div_two]
  refine ⟨h01, ?_⟩
  simp only [get_flared_coords_iter, Function.iterate_one, h01, arctan2_one_zero]
  unfold flared_coords_step
  simp only [hz, hw, zero_add, radians_45, Real.tan_pi_div_four, mul_one]
  have hy : (0 : ℝ) < 1 + Real.tan (Real.pi / 2 * Real.exp (-(1 / 2))) := by linarith
  have : hypot (1 + Real.tan (Real.pi / 2 * Real.exp (-(1 / 2)))) 0 =
      1 + Real.tan (Real.pi / 2 * Real.exp (-(1 / 2))) := by
    unfold hypot
    rw [show (1 + Real.tan (Real.pi / 2 * Real.exp (-(1 / 2)))) ^ 2 + (0:ℝ) ^ 2 =
        (1 + Real.tan (Real.pi / 2 * Real.exp (-(1 / 2)))) ^ 2 by ring]
    exact Real.sqrt_sq hy.le
  rw [this]
  intro hcontra
  nlinarith

/-- C7 amended: with `z0 = 0` AND zero warp amplitude `w_i = 0` (so the warp
term vanishes as well), the iterative flared-surface solver returns
exactly the flat-disk radius and azimuth for every iteration count
`niter ≥ 0`; the flat-disk values are a fixed point of the loop body. -/
theorem flared_solver_z0_zero_wi_zero_flat
    (x_mid y_mid inc r_cavity r_taper psi q_taper w_r w_t : ℝ) (niter : ℕ) :
    (get_flared_coords_iter x_mid y_mid inc 0 r_cavity r_taper psi q_taper w_r 0 w_t niter).1
        = hypot x_mid y_mid ∧
      (get_flared_coords_iter x_mid y_mid inc 0 r_cavity r_taper psi q_taper w_r 0 w_t niter).2.1
        = arctan2 y_mid x_mid := by
  have hstep : flared_coords_step x_mid y_mid inc 0 r_cavity r_taper psi q_taper w_r 0 w_t
      (hypot x_mid y_mid, arctan2 y_mid x_mid) = (hypot x_mid y_mid, arctan2 y_mid x_mid) := by
    unfold flared_coords_step
    simp only [z_func_z0_zero, w_func_wi_zero, add_zero, zero_add, zero_mul]
    rw [hypot_comm y_mid x_mid]
  simp only [get_flared_coords_iter, Function.iterate_fixed hstep]
  exact ⟨trivial, trivial⟩

/-- C8: the claim states that with `inc = 0` the geometry engine returns
azimuth `arctan2` of the recentred sky-plane coordinates themselves.  This
is false: the position-angle rotation still applies.  At
`x0 = y0 = 0`, `PA = 0`, pixel `(x, y) = (1, 0)`, `niter = 0`, the engine
returns azimuth `π/2` while `arctan2(y - y0, x - x0) = arctan2(0, 1) = 0`. -/
theorem geometry_engine_inc_zero_azimuth_counterexample :
    (get_flared_coords 0 0 1 0 0 0 0 0 1 1 1 1 0 0 0).2.1 = Real.pi / 2 ∧
      arctan2 (0 - 0) (1 - 0) = 0 ∧ (Real.pi / 2 : ℝ) ≠ 0 := by
  refine ⟨?_, ?_, ?_⟩
  · unfold get_flared_coords get_midplane_cart_coords get_cart_sky_coords deproject_coords
      rotate_coords
    simp only [get_flared_coords_iter, Function.iterate_zero, id_eq, radians_0]
    norm_num
    exact arctan2_one_zero
  · norm_num
    exact arctan2_zero_one
  · positivity

/-- C8 amended: with `inc = 0` the geometry engine's radius equals
`hypot (x - x0) (y - y0)` of the recentred sky-plane coordinates (this part
of the claim holds, for every PA and iteration count, because the PA
transform preserves the norm), but its azimuth equals `arctan2` applied to
the PA-ROTATED recentred coordinates `rotate_coords (x - x0) (y - y0) PA`,
not to the recentred coordinates themselves. -/
theorem geometry_engine_inc_zero_spec
    (x0 y0 x y PA z0 r_cavity r_taper psi q_taper w_r w_i w_t : ℝ) (niter : ℕ) :
    (get_flared_coords x0 y0 x y 0 PA z0 r_cavity r_taper psi q_taper w_r w_i w_t niter).1
        = hypot (x - x0) (y - y0) ∧
      (get_flared_coords x0 y0 x y 0 PA z0 r_cavity r_taper psi q_taper w_r w_i w_t niter).2.1
        = arctan2 (rotate_coords (x - x0) (y - y0) PA).2 (rotate_coords (x - x0) (y - y0) PA).1 := by
  have hcos0 : Real.cos (radians 0) = 1 := by rw [radians_0, Real.cos_zero]
  have htan0 : Real.tan (radians 0) = 0 := by rw [radians_0, Real.tan_zero]
  set a := (rotate_coords (x - x0) (y - y0) PA).1 with ha
  set b := (rotate_coords (x - x0) (y - y0) PA).2 with hb
  have hmid : get_midplane_cart_coords x0 y0 0 PA x y = (a, b) := by
    unfold get_midplane_cart_coords get_cart_sky_coords deproject_coords
    rw [hcos0]
    simp [ha, hb]
  have hstep : flared_coords_step a b 0 z0 r_cavity r_taper psi q_taper w_r w_i w_t
      (hypot a b, arctan2 b a) = (hypot a b, arctan2 b a) := by
    unfold flared_coords_step
    simp only [htan0, mul_zero, add_zero]
    rw [hypot_comm b a]
  have hph : hypot a b = hypot (x - x0) (y - y0) := by
    rw [ha, hb]; exact rotate_coords_hypot _ _ _
  unfold get_flared_coords
  rw [hmid]
  simp only [get_flared_coords_iter, Function.iterate_fixed hstep]
  exact ⟨hph, trivial⟩

/-- The inclination convention applied at the top of
`rotationmap.disk_coords` (fit_cube.py line 523):
`inc = inc if inc < 90.0 else inc - 180.0`. -/
def inc_convention (inc : ℝ) : ℝ := if inc < 90 then inc else inc - 180

/-- C2: the claim states that the inclination value actually used lies in
the half-open interval `(-90, 90]` for every float input.  This is false:
input 300 is mapped to 120, which is outside `(-90, 90]`.  (Input 90 is
another failure: it maps to -90, excluded from the half-open interval.) -/
theorem inc_convention_counterexample :
    inc_convention 300 = 120 ∧ ¬((-90 : ℝ) < 120 ∧ (120 : ℝ) ≤ 90) := by
  constructor
  · unfold inc_convention; norm_num
  · norm_num

/-- C2 amended: every input inclination ≥ 90 is mapped by subtracting 180
degrees and every input < 90 is left unchanged; consequently the value
actually used lies in the half-open interval `[-90, 90)` whenever the
input lies in `[-90, 270)`.  Inputs outside `[-90, 270)` are not
normalised (e.g. 300 maps to 120 and -100 stays at -100). -/
theorem inc_convention_spec (inc : ℝ) :
    (90 ≤ inc → inc_convention inc = inc - 180) ∧
      (inc < 90 → inc_convention inc = inc) ∧
      (-90 ≤ inc → inc < 270 → -90 ≤ inc_convention inc ∧ inc_convention inc < 90) := by
  unfold inc_convention
  refine ⟨fun h => ?_, fun h => ?_, fun h1 h2 => ?_⟩
  · rw [if_neg (not_lt.mpr h)]
  · rw [if_pos h]
  · split_ifs with h
    · exact ⟨h1, h⟩
    · constructor <;> linarith [not_lt.mp h]

theorem inc_convention_spec_witness :
    inc_convention 100 = -80 ∧ (-90 : ℝ) ≤ inc_convention 100 ∧ inc_convention 100 < 90 := by
  have h := inc_convention_spec 100
  refine ⟨?_, (h.2.2 (by norm_num) (by norm_num)).1, (h.2.2 (by norm_num) (by norm_num)).2⟩
  rw [h.1 (by norm_num)]
  norm_num

end

/-! ### `verify_params_dictionary` (fit_cube.py lines 777-846)

The dictionary-validation logic is pure bookkeeping on float values, so it
is modelled executably over `ℚ` (every Python float is an exact rational;
`np.pi` is the float64 rational below).  A key that may be absent from the
dictionary is an `Option`; boolean-valued keys are kept separate because
`verify_params_dictionary` never substitutes or compares them. -/

/-- The float64 value of `np.pi`, as an exact rational. -/
def np_pi : ℚ := 884279719003555 / 281474976710656

/-- Observation-dependent state of the `rotationmap` object read by
`verify_params_dictionary` and `_set_default_priors`: `self.vlsr`
(`np.nanmedian(self.data)`), `np.nanmin/np.nanmax` of the data, and
`max(self.xaxis)`. -/
structure MapState where
  vlsr : ℚ
  dataMin : ℚ
  dataMax : ℚ
  xaxisMax : ℚ

/-- A parameter dictionary entering `verify_params_dictionary`: each key
either absent (`none`) or holding a (float) value. -/
structure ParamsIn where
  x0 : Option ℚ := none
  y0 : Option ℚ := none
  dist : Option ℚ := none
  vlsr : Option ℚ := none
  inc : Option ℚ := none
  PA : Option ℚ := none
  mstar : Option ℚ := none
  vp_100 : Option ℚ := none
  vp_q : Option ℚ := none
  vp_rtaper : Option ℚ := none
  vp_qtaper : Option ℚ := none
  vr_100 : Option ℚ := none
  vr_q : Option ℚ := none
  z0 : Option ℚ := none
  psi : Option ℚ := none
  r_taper : Option ℚ := none
  q_taper : Option ℚ := none
  r_cavity : Option ℚ := none
  w_i : Option ℚ := none
  w_r : Option ℚ := none
  w_t : Option ℚ := none
  shadowed : Option Bool := none
  r_min : Option ℚ := none
  r_max : Option ℚ := none
  exclude_r : Option Bool := none
  PA_min : Option ℚ := none
  PA_max : Option ℚ := none
  exclude_PA : Option Bool := none
  abs_PA : Option Bool := none
  v_min : Option ℚ := none
  v_max : Option ℚ := none
  exclude_v : Option Bool := none
  beam : Option Bool := none

/-- The populated dictionary returned by `verify_params_dictionary`: every
key now present (`mstar`/`vp_100` stay optional since exactly one of them
is set; the code never fills the other). -/
structure ParamsOut where
  x0 : ℚ
  y0 : ℚ
  dist : ℚ
  vlsr : ℚ
  inc : ℚ
  PA : ℚ
  mstar : Option ℚ
  vp_100 : Option ℚ
  vfunc : String
  vp_q : ℚ
  vp_rtaper : ℚ
  vp_qtaper : ℚ
  vr_100 : ℚ
  vr_q : ℚ
  z0 : ℚ
  psi : ℚ
  r_taper : ℚ
  q_taper : ℚ
  r_cavity : ℚ
  w_i : ℚ
  w_r : ℚ
  w_t : ℚ
  shadowed : Bool
  r_min : ℚ
  r_max : ℚ
  exclude_r : Bool
  PA_min : ℚ
  PA_max : ℚ
  exclude_PA : Bool
  abs_PA : Bool
  v_min : ℚ
  v_max : ℚ
  exclude_v : Bool
  beam : Bool

/-- `rotationmap.verify_params_dictionary(params)` (fit_cube.py lines
777-846).  Raises (`Except.error`) when `inc` or `PA` is missing, when
both or neither of `mstar`/`vp_100` are given, or when a defaulted bound
pair is inverted; otherwise returns the dictionary with every remaining
key filled with its default. -/
def verify_params_dictionary (st : MapState) (p : ParamsIn) : Except String ParamsOut :=
  if p.inc = none then Except.error "Must provide inc"
  else if p.PA = none then Except.error "Must provide PA"
  else if p.mstar ≠ none ∧ p.vp_100 ≠ none then
    Except.error "Only provide either mstar or vp_100"
  else if p.mstar = none ∧ p.vp_100 = none then
    Except.error "Must provide either mstar or vp_100"
  else
    let r_min := p.r_min.getD 0
    let r_max := p.r_max.getD 1e10
    let PA_min := p.PA_min.getD (-np_pi)
    let PA_max := p.PA_max.getD np_pi
    let v_min := p.v_min.getD st.dataMin
    let v_max := p.v_max.getD st.dataMax
    if r_min ≥ r_max then Except.error "r_max must be greater than r_min"
    else if PA_min ≥ PA_max then Except.error "PA_max must be great than PA_min"
    else if v_min ≥ v_max then Except.error "v_max must be greater than v_min"
    else Except.ok
      { x0 := p.x0.getD 0
        y0 := p.y0.getD 0
        dist := p.dist.getD 100
        vlsr := p.vlsr.getD st.vlsr
        inc := p.inc.getD 0
        PA := p.PA.getD 0
        mstar := p.mstar
        vp_100 := p.vp_100
        vfunc := if p.mstar ≠ none then "proj_vkep" else "proj_vpow"
        vp_q := p.vp_q.getD (-0.5)
        vp_rtaper := p.vp_rtaper.getD 1e10
        vp_qtaper := p.vp_qtaper.getD 1
        vr_100 := p.vr_100.getD 0
        vr_q := p.vr_q.getD 0
        z0 := p.z0.getD 0
        psi := p.psi.getD 1
        r_taper := p.r_taper.getD 1e10
        q_taper := p.q_taper.getD 1
        r_cavity := p.r_cavity.getD 0
        w_i := p.w_i.getD 0
        w_r := p.w_r.getD (0.5 * st.xaxisMax)
        w_t := p.w_t.getD 0
        shadowed := p.shadowed.getD false
        r_min := r_min
        r_max := r_max
        exclude_r := p.exclude_r.getD false
        PA_min := PA_min
        PA_max := PA_max
        exclude_PA := p.exclude_PA.getD false
        abs_PA := p.abs_PA.getD false
        v_min := v_min
        v_max := v_max
        exclude_v := p.exclude_v.getD false
        beam := p.beam.getD false }

/-- C3: `verify_params_dictionary` raises exactly when `inc` is missing,
`PA` is missing, both of `mstar`/`vp_100` are present, neither is present,
or one of the defaulted bound pairs `(r_min, r_max)`, `(PA_min, PA_max)`,
`(v_min, v_max)` satisfies min ≥ max; on success every remaining field of
the returned dictionary is filled with its documented default. -/
theorem verify_params_dictionary_spec (st : MapState) (p : ParamsIn) :
    ((∃ e, verify_params_dictionary st p = Except.error e) ↔
      (p.inc = none ∨ p.PA = none ∨ (p.mstar ≠ none ∧ p.vp_100 ≠ none) ∨
        (p.mstar = none ∧ p.vp_100 = none) ∨
        p.r_min.getD 0 ≥ p.r_max.getD 1e10 ∨
        p.PA_min.getD (-np_pi) ≥ p.PA_max.getD np_pi ∨
        p.v_min.getD st.dataMin ≥ p.v_max.getD st.dataMax)) ∧
    (∀ q, verify_params_dictionary st p = Except.ok q →
      q.x0 = p.x0.getD 0 ∧ q.y0 = p.y0.getD 0 ∧ q.dist = p.dist.getD 100 ∧
      q.vlsr = p.vlsr.getD st.vlsr ∧ p.inc = some q.inc ∧ p.PA = some q.PA ∧
      q.mstar = p.mstar ∧ q.vp_100 = p.vp_100 ∧
      q.vfunc = (if p.mstar ≠ none then "proj_vkep" else "proj_vpow") ∧
      q.vp_q = p.vp_q.getD (-0.5) ∧ q.vp_rtaper = p.vp_rtaper.getD 1e10 ∧
      q.vp_qtaper = p.vp_qtaper.getD 1 ∧ q.vr_100 = p.vr_100.getD 0 ∧
      q.vr_q = p.vr_q.getD 0 ∧ q.z0 = p.z0.getD 0 ∧ q.psi = p.psi.getD 1 ∧
      q.r_taper = p.r_taper.getD 1e10 ∧ q.q_taper = p.q_taper.getD 1 ∧
      q.r_cavity = p.r_cavity.getD 0 ∧ q.w_i = p.w_i.getD 0 ∧
      q.w_r = p.w_r.getD (0.5 * st.xaxisMax) ∧ q.w_t = p.w_t.getD 0 ∧
      q.shadowed = p.shadowed.getD false ∧
      q.r_min = p.r_min.getD 0 ∧ q.r_max = p.r_max.getD 1e10 ∧
      q.exclude_r = p.exclude_r.getD false ∧
      q.PA_min = p.PA_min.getD (-np_pi) ∧ q.PA_max = p.PA_max.getD np_pi ∧
      q.exclude_PA = p.exclude_PA.getD false ∧ q.abs_PA = p.abs_PA.getD false ∧
      q.v_min = p.v_min.getD st.dataMin ∧ q.v_max = p.v_max.getD st.dataMax ∧
      q.exclude_v = p.exclude_v.getD false ∧ q.beam = p.beam.getD false) := by
  constructor
  · simp only [verify_params_dictionary]
    split_ifs with h1 h2 h3 h4 h5 h6 h7 <;> simp_all
  · intro q hq
    simp only [verify_params_dictionary] at hq
    split_ifs at hq with h1 h2 h3 h4 h5 h6 h7 h8 <;>
      first
        | exact Except.noConfusion hq
        | (injection hq with hq
           subst hq
           have hinc : p.inc = some (p.inc.getD 0) := by
             obtain ⟨vi, hvi⟩ := Option.ne_none_iff_exists.mp h1
             simp [← hvi]
           have hPA2 : p.PA = some (p.PA.getD 0) := by
             obtain ⟨vP, hvP⟩ := Option.ne_none_iff_exists.mp h2
             simp [← hvP]
           and_intros <;> first | rfl | exact hinc | exact hPA2 | simp [h8])

/-- A concrete map state: `vlsr = 5`, data range `[-1, 1]`, `max(xaxis) = 4`. -/
def mapState₀ : MapState := { vlsr := 5, dataMin := -1, dataMax := 1, xaxisMax := 4 }

/-- A concrete Keplerian parameter dictionary: only `inc`, `PA`, `mstar`. -/
def paramsKep₀ : ParamsIn := { inc := some 30, PA := some 45, mstar := some 1 }

/-- The populated dictionary `verify_params_dictionary` returns for
`paramsKep₀` on `mapState₀`, written out value by value. -/
def qKep₀ : ParamsOut :=
  { x0 := 0, y0 := 0, dist := 100, vlsr := 5, inc := 30, PA := 45,
    mstar := some 1, vp_100 := none, vfunc := "proj_vkep",
    vp_q := -0.5, vp_rtaper := 1e10, vp_qtaper := 1, vr_100 := 0, vr_q := 0,
    z0 := 0, psi := 1, r_taper := 1e10, q_taper := 1, r_cavity := 0,
    w_i := 0, w_r := 2, w_t := 0, shadowed := false,
    r_min := 0, r_max := 1e10, exclude_r := false,
    PA_min := -np_pi, PA_max := np_pi, exclude_PA := false, abs_PA := false,
    v_min := -1, v_max := 1, exclude_v := false, beam := false }

theorem verify_params_dictionary_spec_witness :
    (∃ e, verify_params_dictionary mapState₀ { } = Except.error e) ∧
      verify_params_dictionary mapState₀ paramsKep₀ = Except.ok qKep₀ ∧ qKep₀.dist = 100 := by
  have hok : verify_params_dictionary mapState₀ paramsKep₀ = Except.ok qKep₀ := by
    simp only [verify_params_dictionary, mapState₀, paramsKep₀, qKep₀]
    norm_num [np_pi]
    simp
  obtain ⟨-, -, hdist, -⟩ := (verify_params_dictionary_spec mapState₀ paramsKep₀).2 qKep₀ hok
  exact ⟨(verify_params_dictionary_spec mapState₀ { }).1.mpr (Or.inl rfl), hok, hdist⟩

/-! ### Velocity model library (models.py) and `rotationmap.vphi` -/

noncomputable section

/-- `au = scipy.constants.au` (models.py line 7). -/
def au : ℝ := 149597870700

/-- `G = scipy.constants.G` (models.py line 8). -/
def G : ℝ := 6.6743e-11

/-- `msun = 1.988e30` (models.py line 9). -/
def msun : ℝ := 1.988e30

/-- `models.proj_vphi(v_phi, tvals, inc)` (models.py lines 34-37):
`v_phi * cos(tvals) * |sin(radians(inc))|`. -/
def proj_vphi (v_phi tvals inc : ℝ) : ℝ :=
  v_phi * Real.cos tvals * |Real.sin (radians inc)|

/-- `models.proj_vrad(v_rad, tvals, inc)` (models.py lines 40-43):
`v_rad * sin(tvals) * |sin(radians(inc))|`. -/
def proj_vrad (v_rad tvals inc : ℝ) : ℝ :=
  v_rad * Real.sin tvals * |Real.sin (radians inc)|

/-- `models.proj_vkep` (models.py lines 13-20): scale to physical radii,
`v_phi = sqrt(G*mstar*msun*r² * hypot(r, z)⁻³)`, then project. -/
def proj_vkep (rvals tvals zvals dist mstar inc : ℝ) : ℝ :=
  let rvals2 := rvals * au * dist
  let zvals2 := zvals * au * dist
  let v_phi := G * mstar * msun * rvals2 ^ (2 : ℕ)
  let v_phi2 := Real.sqrt (v_phi * hypot rvals2 zvals2 ^ (-3 : ℝ))
  proj_vphi v_phi2 tvals inc

/-- `models.proj_vpow` (models.py lines 23-31).  Lines 26-28 compute the
projected rotational component
`proj_vphi(vp_100 * (r*dist/100)^vp_q * exp(-(r/vp_rtaper)^vp_qtaper))`;
line 29 then reads the names `vr_q` (and line 30 `vr_100`), which are
defined nowhere in models.py — they are neither parameters of the function
nor module globals — so every call fails with `NameError` (under
`numba.njit`, a typing error when the call is first compiled).  The
function can never return a value. -/
def proj_vpow (rvals tvals zvals dist mstar inc vp_q vp_100 vp_qtaper vp_rtaper : ℝ) :
    Except String ℝ :=
  let v_phi := (rvals * dist / 100) ^ vp_q * Real.exp (-((rvals / vp_rtaper) ^ vp_qtaper))
  let v_phi2 := proj_vphi (vp_100 * v_phi) tvals inc
  Except.error "NameError: name vr_q is not defined"

/-- The fields of the populated parameter dictionary that
`rotationmap.vphi` reads. -/
structure VphiParams where
  dist : ℝ
  mstar : Option ℝ
  inc : ℝ
  vp_q : ℝ
  vp_100 : Option ℝ
  vp_qtaper : ℝ
  vp_rtaper : ℝ
  vlsr : ℝ
  vfunc : String

/-- `params[key]` on a Python dict: the value when the key is present,
`KeyError` otherwise. -/
def dict_get (key : String) : Option ℝ → Except String ℝ
  | some v => Except.ok v
  | none => Except.error ("KeyError: " ++ key)

/-- `rotationmap.vphi(params)` (fit_cube.py lines 1021-1044), evaluated at
the disk coordinates of one pixel.  The Keplerian branch reads
`params['mstar']` and calls `proj_vkep`; the power-law branch also reads
`params['mstar']` (it is the fifth argument of the `proj_vpow` call on
line 1042) before reading `params['vp_100']` and calling `proj_vpow`.
Either branch adds `params['vlsr']`. -/
def vphi (p : VphiParams) (rvals tvals zvals : ℝ) : Except String ℝ :=
  if p.vfunc = "proj_vkep" then do
    let mstar ← dict_get "mstar" p.mstar
    pure (proj_vkep rvals tvals zvals p.dist mstar p.inc + p.vlsr)
  else do
    let mstar ← dict_get "mstar" p.mstar
    let vp100 ← dict_get "vp_100" p.vp_100
    let v ← proj_vpow rvals tvals zvals p.dist mstar p.inc p.vp_q vp100 p.vp_qtaper p.vp_rtaper
    pure (v + p.vlsr)

/-- The fields of a verified parameter dictionary read by
`rotationmap.vphi`, with the rational float values cast to `ℝ`. -/
def ParamsOut.toVphi (q : ParamsOut) : VphiParams :=
  { dist := (q.dist : ℝ), mstar := q.mstar.map (fun v => (v : ℝ)), inc := (q.inc : ℝ),
    vp_q := (q.vp_q : ℝ), vp_100 := q.vp_100.map (fun v => (v : ℝ)),
    vp_qtaper := (q.vp_qtaper : ℝ), vp_rtaper := (q.vp_rtaper : ℝ),
    vlsr := (q.vlsr : ℝ), vfunc := q.vfunc }

/-- A concrete power-law parameter dictionary: `inc`, `PA` and `vp_100`
set, `mstar` absent — the configuration the claim says must evaluate. -/
def paramsPow₀ : ParamsIn := { inc := some 30, PA := some 45, vp_100 := some 100 }

/-- The populated dictionary `verify_params_dictionary` returns for
`paramsPow₀` on `mapState₀`. -/
def qPow₀ : ParamsOut :=
  { x0 := 0, y0 := 0, dist := 100, vlsr := 5, inc := 30, PA := 45,
    mstar := none, vp_100 := some 100, vfunc := "proj_vpow",
    vp_q := -0.5, vp_rtaper := 1e10, vp_qtaper := 1, vr_100 := 0, vr_q := 0,
    z0 := 0, psi := 1, r_taper := 1e10, q_taper := 1, r_cavity := 0,
    w_i := 0, w_r := 2, w_t := 0, shadowed := false,
    r_min := 0, r_max := 1e10, exclude_r := false,
    PA_min := -np_pi, PA_max := np_pi, exclude_PA := false, abs_PA := false,
    v_min := -1, v_max := 1, exclude_v := false, beam := false }

/-- C1 (code bug): on a parameter dictionary containing `vp_100` and not
`mstar` — exactly the configuration the claim says must succeed —
`verify_params_dictionary` accepts the dictionary and selects the
power-law branch (`vfunc = 'proj_vpow'`) while leaving `mstar` absent;
`rotationmap.vphi` then evaluates the call argument `params['mstar']`
(fit_cube.py line 1042), raising `KeyError`, so the power-law model
evaluation fails at every pixel instead of returning the claimed value.
(Even past that lookup, `proj_vpow` itself stops at the undefined names
`vr_q`/`vr_100`, models.py lines 29-30.) -/
theorem power_law_model_evaluation_fails :
    ∃ q, verify_params_dictionary mapState₀ paramsPow₀ = Except.ok q ∧
      q.vfunc = "proj_vpow" ∧ q.mstar = none ∧
      ∀ rvals tvals zvals : ℝ,
        vphi q.toVphi rvals tvals zvals = Except.error "KeyError: mstar" := by
  have hok : verify_params_dictionary mapState₀ paramsPow₀ = Except.ok qPow₀ := by
    simp only [verify_params_dictionary, mapState₀, paramsPow₀, qPow₀]
    norm_num [np_pi]
    simp
  refine ⟨qPow₀, hok, rfl, rfl, fun rvals tvals zvals => rfl⟩

/-! ### Priors, log-prior, log-likelihood, log-probability
(fit_cube.py lines 397-420 and 653-714)

Log-densities live in `EReal`: a float `-np.inf` is `⊥`, `+np.inf` is `⊤`,
and `np.isfinite` is "neither `⊥` nor `⊤`". -/

/-- The prior registered by `set_prior(param, [a, b], 'flat')` (fit_cube.py
lines 411-415): `-inf` unless `min(args) <= p <= max(args)`, otherwise
`log(1 / (args[1] - args[0]))`. -/
def flat_prior (a b : ℝ) (p : ℝ) : EReal :=
  if min a b ≤ p ∧ p ≤ max a b then ((Real.log (1 / (b - a)) : ℝ) : EReal) else ⊥

/-- The prior registered by `set_prior(param, [mu, sig], 'gaussian')`
(fit_cube.py lines 416-419). -/
def gaussian_prior (mu sig : ℝ) (p : ℝ) : EReal :=
  ((Real.log (Real.exp (-(1 / 2) * ((mu - p) / sig) ^ (2 : ℕ)) /
    Real.sqrt (2 * Real.pi) / sig) : ℝ) : EReal)

/-- One entry of a parameter dictionary: a fixed float value, a free
parameter index (a Python `int`), or a boolean flag. -/
inductive PEntry where
  | num (v : ℝ)
  | idx (i : ℕ)
  | flag (b : Bool)

/-- The float obtained when a dictionary entry is passed to a prior
function: a value is itself, an `int` index is its numeric value, a
Python `bool` is 0 or 1. -/
def PEntry.val : PEntry → ℝ
  | .num v => v
  | .idx i => i
  | .flag b => if b then 1 else 0

/-- `rotationmap._populate_dictionary(theta, dictionary)` (fit_cube.py
lines 767-775): every `int`-valued (and not `bool`-valued) entry is
replaced by `theta[entry]`; all other entries are kept. -/
def populate_dictionary (θ : ℕ → ℝ) (params : List (String × PEntry)) :
    List (String × PEntry) :=
  params.map fun kv =>
    match kv.2 with
    | .idx i => (kv.1, .num (θ i))
    | e => (kv.1, e)

/-- The loop of `rotationmap._ln_prior(params)` (fit_cube.py lines
704-714): starting from the accumulator `lnp`, for each key of the
dictionary that has a registered prior, add that prior's value and return
the accumulator as soon as it is non-finite. -/
def ln_prior_loop (priors : List (String × (ℝ → EReal))) :
    EReal → List (String × PEntry) → EReal
  | lnp, [] => lnp
  | lnp, (k, e) :: rest =>
    match priors.lookup k with
    | none => ln_prior_loop priors lnp rest
    | some pr =>
      let lnp2 := lnp + pr e.val
      if lnp2 = ⊥ ∨ lnp2 = ⊤ then lnp2 else ln_prior_loop priors lnp2 rest

/-- `rotationmap._ln_prior(params)`: the loop above started at `lnp = 0`. -/
def ln_prior (priors : List (String × (ℝ → EReal)))
    (params : List (String × PEntry)) : EReal :=
  ln_prior_loop priors 0 params

/-- `rotationmap._ln_probability(theta, params)` (fit_cube.py lines
663-670): populate the dictionary from `theta`, evaluate the log-prior,
and return prior + likelihood when the prior is finite, `-inf` otherwise.
The likelihood (`self._ln_likelihood`, which runs geometry and model
evaluation) is passed as the function `lik`. -/
def ln_probability (priors : List (String × (ℝ → EReal)))
    (lik : List (String × PEntry) → EReal) (θ : ℕ → ℝ)
    (params : List (String × PEntry)) : EReal :=
  let model := populate_dictionary θ params
  let lnp := ln_prior priors model
  if lnp = ⊥ ∨ lnp = ⊤ then ⊥ else lnp + lik model

theorem flat_prior_ne_top (a b p : ℝ) : flat_prior a b p ≠ ⊤ := by
  unfold flat_prior
  split_ifs
  · exact EReal.coe_ne_top _
  · exact bot_ne_top

/-- Shared helper: if the dictionary holds a registered prior term equal to
`⊥` and no registered term equal to `⊤`, the prior loop started at any
finite (real) accumulator returns `⊥`. -/
theorem ln_prior_loop_bot (priors : List (String × (ℝ → EReal)))
    (params : List (String × PEntry))
    (htop : ∀ k e pr, (k, e) ∈ params → priors.lookup k = some pr → pr e.val ≠ ⊤)
    (hbot : ∃ k e pr, (k, e) ∈ params ∧ priors.lookup k = some pr ∧ pr e.val = ⊥)
    (lnp : ℝ) :
    ln_prior_loop priors (lnp : EReal) params = ⊥ := by
  induction params generalizing lnp with
  | nil =>
    obtain ⟨k, e, pr, h, -, -⟩ := hbot
    exact absurd h (List.not_mem_nil _)
  | cons hd rest ih =>
    obtain ⟨k₀, e₀⟩ := hd
    rw [ln_prior_loop]
    cases hlk : priors.lookup k₀ with
    | none =>
      refine ih ?_ ?_ lnp
      · exact fun k e pr hm => htop k e pr (List.mem_cons_of_mem _ hm)
      · obtain ⟨k, e, pr, hm, hl, hb⟩ := hbot
        rcases List.mem_cons.mp hm with heq | hm2
        · obtain ⟨rfl, rfl⟩ := Prod.mk.injEq .. ▸ heq
          exact absurd hl (hlk ▸ fun h => Option.noConfusion h)
        · exact ⟨k, e, pr, hm2, hl, hb⟩
    | some pr₀ =>
      have htop₀ : pr₀ e₀.val ≠ ⊤ :=
        htop k₀ e₀ pr₀ (List.mem_cons_self _ _) hlk
      by_cases hb₀ : pr₀ e₀.val = ⊥
      · have : (lnp : EReal) + pr₀ e₀.val = ⊥ := by rw [hb₀, EReal.add_bot]
        simp [this]
      · lift pr₀ e₀.val to ℝ using ⟨htop₀, hb₀⟩ with r hr
        rw [← EReal.coe_add]
        simp only [EReal.coe_ne_bot, EReal.coe_ne_top, or_self, if_false]
        refine ih ?_ ?_ (lnp + r)
        · exact fun k e pr hm => htop k e pr (List.mem_cons_of_mem _ hm)
        · obtain ⟨k, e, pr, hm, hl, hb⟩ := hbot
          rcases List.mem_cons.mp hm with heq | hm2
          · obtain ⟨rfl, rfl⟩ := Prod.mk.injEq .. ▸ heq
            rw [hlk] at hl
            injection hl with hl
            exact absurd (hl ▸ hb) (hr ▸ EReal.coe_ne_bot r)
          · exact ⟨k, e, pr, hm2, hl, hb⟩

/-- C5: the log-probability equals log-prior plus log-likelihood when the
log-prior is finite; when the log-prior is `-inf` the result is `-inf`
independently of the likelihood function (the likelihood — and hence
geometry and model evaluation — is never invoked); and the log-prior
itself returns `-inf` as soon as any registered per-parameter prior term
is `-inf` (provided no registered term is `+inf`; every prior the code
registers with valid arguments takes values in `ℝ ∪ {-inf}`). -/
theorem ln_probability_spec (priors : List (String × (ℝ → EReal)))
    (θ : ℕ → ℝ) (params : List (String × PEntry)) :
    (∀ lik, ln_prior priors (populate_dictionary θ params) ≠ ⊥ →
        ln_prior priors (populate_dictionary θ params) ≠ ⊤ →
        ln_probability priors lik θ params =
          ln_prior priors (populate_dictionary θ params) +
            lik (populate_dictionary θ params)) ∧
    (ln_prior priors (populate_dictionary θ params) = ⊥ →
        ∀ lik, ln_probability priors lik θ params = ⊥) ∧
    ((∀ k e pr, (k, e) ∈ params → priors.lookup k = some pr → pr e.val ≠ ⊤) →
        (∃ k e pr, (k, e) ∈ params ∧ priors.lookup k = some pr ∧ pr e.val = ⊥) →
        ln_prior priors params = ⊥) := by
  refine ⟨fun lik h1 h2 => ?_, fun h lik => ?_, fun htop hbot => ?_⟩
  · unfold ln_probability
    rw [if_neg]
    push_neg
    exact ⟨h1, h2⟩
  · unfold ln_probability
    rw [if_pos (Or.inl h)]
  · unfold ln_prior
    rw [show (0 : EReal) = ((0 : ℝ) : EReal) by norm_num]
    exact ln_prior_loop_bot priors params htop hbot 0

/-- A one-entry prior registry used by the witness. -/
def priors₀ : List (String × (ℝ → EReal)) := [("inc", flat_prior (-90) 90)]

/-- A dictionary fixing `inc` to 200, outside the `[-90, 90]` flat prior. -/
def paramsBad₀ : List (String × PEntry) := [("inc", PEntry.num 200)]

theorem ln_probability_spec_witness :
    ln_prior priors₀ paramsBad₀ = ⊥ ∧
      ln_probability priors₀ (fun _ => 0) (fun _ => 0) paramsBad₀ = ⊥ := by
  have h := ln_probability_spec priors₀ (fun _ => 0) paramsBad₀
  have hpop : populate_dictionary (fun _ => 0) paramsBad₀ = paramsBad₀ := rfl
  have hbot : ln_prior priors₀ paramsBad₀ = ⊥ := by
    refine h.2.2 ?_ ?_
    · intro k e pr hm hl
      simp only [paramsBad₀, List.mem_singleton, Prod.mk.injEq] at hm
      obtain ⟨rfl, rfl⟩ := hm
      simp only [priors₀, List.lookup_cons_self, Option.some.injEq] at hl
      subst hl
      exact flat_prior_ne_top _ _ _
    · refine ⟨"inc", PEntry.num 200, flat_prior (-90) 90, ?_, ?_, ?_⟩
      · simp [paramsBad₀]
      · rfl
      · unfold flat_prior PEntry.val
        rw [if_neg]
        intro hc
        have := hc.2
        rw [max_eq_right (by norm_num : (-90 : ℝ) ≤ 90)] at this
        norm_num at this
  exact ⟨hbot, h.2.1 (hpop ▸ hbot) _⟩

/-- C9: a flat prior registered with bounds `[a, b]`, `a < b`, returns
`-inf` for every value strictly below `a` or strictly above `b`, and the
constant `log(1/(b-a))` for every value in the closed interval `[a, b]`,
endpoints `a` and `b` included. -/
theorem flat_prior_spec (a b : ℝ) (hab : a < b) :
    (∀ p, p < a ∨ b < p → flat_prior a b p = ⊥) ∧
      (∀ p, a ≤ p → p ≤ b →
        flat_prior a b p = ((Real.log (1 / (b - a)) : ℝ) : EReal)) := by
  have hmin : min a b = a := min_eq_left hab.le
  have hmax : max a b = b := max_eq_right hab.le
  constructor
  · intro p hp
    unfold flat_prior
    rw [hmin, hmax, if_neg]
    rcases hp with h | h
    · exact fun hc => absurd hc.1 (not_le.mpr h)
    · exact fun hc => absurd hc.2 (not_le.mpr h)
  · intro p h1 h2
    unfold flat_prior
    rw [hmin, hmax, if_pos ⟨h1, h2⟩]

theorem flat_prior_spec_witness :
    flat_prior 0 1 2 = ⊥ ∧
      flat_prior 0 1 0 = ((Real.log (1 / (1 - 0)) : ℝ) : EReal) ∧
      flat_prior 0 1 1 = ((Real.log (1 / (1 - 0)) : ℝ) : EReal) := by
  have h := flat_prior_spec 0 1 (by norm_num)
  exact ⟨h.1 2 (Or.inr (by norm_num)), h.2 0 le_rfl (by norm_num),
    h.2 1 (by norm_num) le_rfl⟩

/-- `rotationmap._set_default_priors` (fit_cube.py lines 672-702): the
default prior registry.  Every entry is a flat prior; the `vlsr` bounds
come from the data (`nanmin/nanmax(self.data) * 1e3`) and the `w_r` bound
from the x-axis extent (`self.xaxis.max()`). -/
def default_priors (st : MapState) : List (String × (ℝ → EReal)) :=
  [("x0", flat_prior (-2) 2),
   ("y0", flat_prior (-2) 2),
   ("inc", flat_prior (-90) 90),
   ("PA", flat_prior (-360) 360),
   ("mstar", flat_prior 0.1 5),
   ("vlsr", flat_prior ((st.dataMin : ℝ) * 1e3) ((st.dataMax : ℝ) * 1e3)),
   ("z0", flat_prior 0 5),
   ("psi", flat_prior 0 5),
   ("r_cavity", flat_prior 0 1e30),
   ("r_taper", flat_prior 0 1e30),
   ("q_taper", flat_prior 0 5),
   ("w_i", flat_prior (-90) 90),
   ("w_r", flat_prior 0 (st.xaxisMax : ℝ)),
   ("w_t", flat_prior (-180) 180),
   ("vp_100", flat_prior 0 1e4),
   ("vp_q", flat_prior (-2) 0),
   ("vp_rtaper", flat_prior 0 1e30),
   ("vp_qtaper", flat_prior 0 5),
   ("vr_100", flat_prior (-1e3) 1e3),
   ("vr_q", flat_prior (-2) 2)]

/-- Every successful lookup in a registry of flat priors yields a flat
prior. -/
theorem lookup_flat (l : List (String × (ℝ → EReal)))
    (hl : ∀ kp ∈ l, ∃ a b, kp.2 = flat_prior a b) :
    ∀ k pr, l.lookup k = some pr → ∃ a b, pr = flat_prior a b := by
  induction l with
  | nil => intro k pr h; simp at h
  | cons hd tl ih =>
    intro k pr h
    rw [List.lookup_cons] at h
    split at h
    · injection h with h
      obtain ⟨a, b, hab⟩ := hl hd (List.mem_cons_self _ _)
      exact ⟨a, b, h ▸ hab⟩
    · exact ih (fun kp hm => hl kp (List.mem_cons_of_mem _ hm)) k pr h

theorem default_priors_flat (st : MapState) :
    ∀ kp ∈ default_priors st, ∃ a b, kp.2 = flat_prior a b := by
  intro kp h
  simp only [default_priors, List.mem_cons, List.not_mem_nil, or_false] at h
  rcases h with h | h | h | h | h | h | h | h | h | h | h | h | h | h | h | h | h | h | h | h <;>
    subst h <;> exact ⟨_, _, rfl⟩

/-- C10: `_ln_prior` sums prior terms over every key of the populated
dictionary that has a registered prior — fixed (constant-valued)
parameters included.  If any parameter is fixed to a value outside the
support of its default-registry prior, the log-probability is `-inf` for
every proposal vector `θ` (and every likelihood function). -/
theorem fixed_param_outside_default_prior_rejects (st : MapState)
    (params : List (String × PEntry)) (k : String) (v : ℝ) (pr : ℝ → EReal)
    (hmem : (k, PEntry.num v) ∈ params)
    (hlk : (default_priors st).lookup k = some pr)
    (hbot : pr v = ⊥) :
    ∀ θ lik, ln_probability (default_priors st) lik θ params = ⊥ := by
  intro θ lik
  have hb : ln_prior (default_priors st) (populate_dictionary θ params) = ⊥ := by
    unfold ln_prior
    rw [show (0 : EReal) = ((0 : ℝ) : EReal) by norm_num]
    refine ln_prior_loop_bot _ _ ?_ ?_ 0
    · intro k1 e1 pr1 hm1 hl1
      obtain ⟨a, b, hab⟩ := lookup_flat _ (default_priors_flat st) k1 pr1 hl1
      rw [hab]
      exact flat_prior_ne_top _ _ _
    · refine ⟨k, PEntry.num v, pr, ?_, hlk, hbot⟩
      have : (k, PEntry.num v) =
          (fun kv : String × PEntry =>
            match kv.2 with
            | .idx i => (kv.1, .num (θ i))
            | e => (kv.1, e)) (k, PEntry.num v) := rfl
      exact this ▸ List.mem_map_of_mem _ hmem
  unfold ln_probability
  rw [if_pos (Or.inl hb)]

theorem fixed_param_outside_default_prior_rejects_witness :
    ln_probability (default_priors mapState₀) (fun _ => 0) (fun _ => 0)
      [("inc", PEntry.idx 0), ("mstar", PEntry.num 10)] = ⊥ := by
  refine fixed_param_outside_default_prior_rejects mapState₀ _ "mstar" 10
    (flat_prior 0.1 5) (by simp) rfl ?_ _ _
  unfold flat_prior
  rw [if_neg]
  intro hc
  have := hc.2
  rw [max_eq_right (by norm_num : (0.1 : ℝ) ≤ 5)] at this
  norm_num at this

/-! ### Log-likelihood (fit_cube.py lines 653-661)

Array entries that may be float non-finite (NaN/±inf) are `Option ℝ` with
`none` for a non-finite entry; arithmetic propagates `none`, and a
non-finite total makes `_ln_likelihood` return `-inf` (the code returns
`lnx2 if np.isfinite(lnx2) else -np.inf`, and every non-finite float total
ends as `-np.inf` there). -/

/-- Float addition propagating non-finite values. -/
def oadd (a b : Option ℝ) : Option ℝ := a.bind fun x => b.map fun y => x + y

/-- Float subtraction propagating non-finite values. -/
def osub (a b : Option ℝ) : Option ℝ := a.bind fun x => b.map fun y => x - y

/-- `np.sum` of an array with possibly non-finite entries. -/
def arr_sum {n : ℕ} (f : Fin n → Option ℝ) : Option ℝ :=
  (List.ofFn f).foldr oadd (some 0)

/-- `rotationmap._ln_likelihood(params)` (fit_cube.py lines 653-661), with
the model array `self._make_model(params) * 1e-3` supplied as `model` and
the observed map as `data`.  `self.mask` is the finite-data mask
`np.isfinite(self.data)` (fit_cube.py line 122).  The code computes
`lnx2 = np.where(self.mask, (self.data - model)**2, 0.0)`, sums it and
multiplies by `-0.5` — the commented-out `* self.ivar` inverse-variance
factor is NOT applied — and returns the value if finite, else `-inf`. -/
def ln_likelihood {n : ℕ} (data model : Fin n → Option ℝ) : EReal :=
  match arr_sum (fun i => if (data i).isSome then
      (osub (data i) (model i)).map (fun d => d ^ (2 : ℕ)) else some 0) with
  | some s => ((-0.5 * s : ℝ) : EReal)
  | none => ⊥

theorem foldr_oadd_some (l : List (Option ℝ)) (h : ∀ x ∈ l, x.isSome) :
    l.foldr oadd (some 0) = some ((l.map (fun x => x.getD 0)).sum) := by
  induction l with
  | nil => simp
  | cons a t ih =>
    obtain ⟨va, hva⟩ := Option.isSome_iff_exists.mp (h a (List.mem_cons_self _ _))
    rw [List.foldr_cons, ih (fun x hx => h x (List.mem_cons_of_mem _ hx))]
    simp [oadd, hva]

theorem foldr_oadd_none (l : List (Option ℝ)) (h : none ∈ l) :
    l.foldr oadd (some 0) = none := by
  induction l with
  | nil => exact absurd h (List.not_mem_nil _)
  | cons a t ih =>
    rcases List.mem_cons.mp h with heq | hm
    · rw [List.foldr_cons, ← heq]
      rfl
    · rw [List.foldr_cons, ih hm]
      cases a <;> rfl

/-- C4: the log-likelihood equals `-0.5` times the sum, over pixels where
the finite-data mask is true, of `(data - model)²`, with no
inverse-variance weighting (the binary finite-mask is the authoritative
weighting); and the result is `-inf` whenever the sum is non-finite (for
instance when the model is non-finite at a masked pixel). -/
theorem ln_likelihood_spec {n : ℕ} (data model : Fin n → Option ℝ) :
    ((∀ i, (data i).isSome → (model i).isSome) →
      ln_likelihood data model =
        ((-0.5 * ∑ i, (if (data i).isSome then
          ((data i).getD 0 - (model i).getD 0) ^ (2 : ℕ) else 0) : ℝ) : EReal)) ∧
    ((∃ i, (data i).isSome ∧ model i = none) → ln_likelihood data model = ⊥) := by
  constructor
  · intro hfin
    unfold ln_likelihood
    set F : Fin n → Option ℝ := fun i => if (data i).isSome then
      (osub (data i) (model i)).map (fun d => d ^ (2 : ℕ)) else some 0 with hF
    have hpt : ∀ i : Fin n, (F i).getD 0 =
        (if (data i).isSome then
          ((data i).getD 0 - (model i).getD 0) ^ (2 : ℕ) else 0) := by
      intro i
      rw [hF]
      by_cases hd : (data i).isSome
      · obtain ⟨vd, hvd⟩ := Option.isSome_iff_exists.mp hd
        obtain ⟨vm, hvm⟩ := Option.isSome_iff_exists.mp (hfin i hd)
        simp [hvd, hvm, osub]
      · simp [hd]
    have hall : ∀ x ∈ List.ofFn F, x.isSome := by
      intro x hx
      rw [List.mem_ofFn] at hx
      obtain ⟨i, hi⟩ := hx
      rw [← hi, hF]
      by_cases hd : (data i).isSome
      · obtain ⟨vd, hvd⟩ := Option.isSome_iff_exists.mp hd
        obtain ⟨vm, hvm⟩ := Option.isSome_iff_exists.mp (hfin i hd)
        simp [hvd, hvm, osub]
      · simp [hd]
    have hsum : arr_sum F = some (∑ i, (if (data i).isSome then
        ((data i).getD 0 - (model i).getD 0) ^ (2 : ℕ) else 0)) := by
      unfold arr_sum
      rw [foldr_oadd_some _ hall, List.map_ofFn, List.sum_ofFn]
      exact congrArg some (Finset.sum_congr rfl fun i _ => hpt i)
    rw [hsum]
  · intro ⟨i, hd, hm⟩
    unfold ln_likelihood
    set F : Fin n → Option ℝ := fun i => if (data i).isSome then
      (osub (data i) (model i)).map (fun d => d ^ (2 : ℕ)) else some 0 with hF
    have hFi : F i = none := by
      obtain ⟨vd, hvd⟩ := Option.isSome_iff_exists.mp hd
      rw [hF]
      simp [hd, hm, hvd, osub]
    have hmem : (none : Option ℝ) ∈ List.ofFn F := by
      rw [List.mem_ofFn]
      exact ⟨i, hFi⟩
    have hsum : arr_sum F = none := by
      unfold arr_sum
      exact foldr_oadd_none _ hmem
    rw [hsum]

/-- Concrete observed data: pixel 0 finite at 1, pixel 1 non-finite. -/
def data₀ : Fin 2 → Option ℝ := ![some 1, none]

/-- Concrete model: finite at both pixels. -/
def model₀ : Fin 2 → Option ℝ := ![some (1 / 2), some 3]

/-- Concrete model that is non-finite at the masked pixel 0. -/
def model₁ : Fin 2 → Option ℝ := ![none, some 3]

theorem ln_likelihood_spec_witness :
    ln_likelihood data₀ model₀ = ((-(1 / 8) : ℝ) : EReal) ∧
      ln_likelihood data₀ model₁ = ⊥ := by
  constructor
  · have h := (ln_likelihood_spec data₀ model₀).1 (by decide)
    rw [h, EReal.coe_eq_coe_iff, Fin.sum_univ_two]
    norm_num [data₀, model₀]
  · exact (ln_likelihood_spec data₀ model₁).2 ⟨0, by decide, rfl⟩

end

end Eddy
